import Mathlib

/-!
Shallow embedding of `program_09.py`, a data-quality pipeline over a daily
hydrometeorological series with four variable columns (Precip, Max Temp,
Min Temp, Wind Speed).  A cell is `Option ℚ`: `none` stands for the NaN
("missing") marker, and comparisons against `none` evaluate to false, matching
pandas/NumPy semantics where every comparison with NaN is False.  The
correction ledger `ReplacedValuesDF` is a 4-row × 4-column table of counts.
-/

/-- One daily record: the four variable columns of `DataDF` (the date index
plays no role in any check and is omitted).  `none` is NaN/missing. -/
structure Record where
  precip : Option ℚ
  maxTemp : Option ℚ
  minTemp : Option ℚ
  windSpeed : Option ℚ
deriving DecidableEq, Repr

/-- One row of `ReplacedValuesDF`: a count per variable column. -/
structure LedgerRow where
  precip : ℕ
  maxTemp : ℕ
  minTemp : ℕ
  windSpeed : ℕ
deriving DecidableEq, Repr

/-- `ReplacedValuesDF`: rows "1. No Data", "2. Gross Error", "3. Swapped",
"4. Range Fail" (source lines 31-34). -/
structure Ledger where
  noData : LedgerRow
  grossError : LedgerRow
  swapped : LedgerRow
  rangeFail : LedgerRow
deriving DecidableEq, Repr

def zeroRow : LedgerRow := ⟨0, 0, 0, 0⟩

/-- The zero-filled ledger created by `ReadData` (line 31: a DataFrame of 0.0). -/
def zeroLedger : Ledger := ⟨zeroRow, zeroRow, zeroRow, zeroRow⟩

/-- One raw line of the input file after parsing: four numeric tokens; the
sentinel -999 is loaded as the literal number (no missing semantics yet). -/
structure RawRecord where
  precip : ℚ
  maxTemp : ℚ
  minTemp : ℚ
  windSpeed : ℚ
deriving DecidableEq, Repr

def rawToRecord (r : RawRecord) : Record :=
  ⟨some r.precip, some r.maxTemp, some r.minTemp, some r.windSpeed⟩

/-- `ReadData(fileName)` (lines 14-35).  The file system is abstracted as a map
from file names to parsed contents.  Line 26 passes the string literal
"DataQualityChecking.txt" to `pd.read_csv`, so the `fileName` parameter is
never consulted.  Returns the parsed data and the zero-filled ledger. -/
def ReadData (fs : String → List RawRecord) (fileName : String) :
    List Record × Ledger :=
  ((fs "DataQualityChecking.txt").map rawToRecord, zeroLedger)

/-- Line 43, per cell: `DataDF[DataDF==-999]=np.nan`.  NaN == -999 is False,
so a missing cell stays missing. -/
def replaceSentinel (v : Option ℚ) : Option ℚ :=
  match v with
  | none => none
  | some x => if x = -999 then none else some x

/-- The effect of line 43 on one record (the mask applies to all columns). -/
def check01record (r : Record) : Record :=
  ⟨replaceSentinel r.precip, replaceSentinel r.maxTemp,
   replaceSentinel r.minTemp, replaceSentinel r.windSpeed⟩

/-- `Check01_RemoveNoDataValues` (lines 37-48).  Line 43 replaces every cell
equal to -999 with NaN; the `return` on line 44 exits the function before the
counting loop on lines 46-48 runs, so the ledger is returned exactly as it
was received: the "1. No Data" row is never written. -/
def Check01_RemoveNoDataValues (data : List Record) (ledger : Ledger) :
    List Record × Ledger :=
  (data.map check01record, ledger)

/-- A gross-error mask cell: `(v < lo) | (v > hi)` with NaN comparing False. -/
def grossIdx (lo hi : ℚ) (v : Option ℚ) : Bool :=
  match v with
  | none => false
  | some x => decide (x < lo) || decide (hi < x)

/-- Replacement of a masked cell with NaN (`DataDF[...][index] = np.nan`). -/
def applyGross (lo hi : ℚ) (v : Option ℚ) : Option ℚ :=
  if grossIdx lo hi v then none else v

/-- The effect of `Check02_GrossErrors` on one record: Precip range [0, 25],
Max Temp and Min Temp range [-25, 35], Wind Speed range [0, 10]
(lines 58-69; each column is masked and replaced independently). -/
def check02record (r : Record) : Record :=
  ⟨applyGross 0 25 r.precip, applyGross (-25) 35 r.maxTemp,
   applyGross (-25) 35 r.minTemp, applyGross 0 10 r.windSpeed⟩

/-- `Check02_GrossErrors` (lines 50-71): per column, count the mask
(`index.sum()`) into row "2. Gross Error", then replace masked cells with
NaN. -/
def Check02_GrossErrors (data : List Record) (ledger : Ledger) :
    List Record × Ledger :=
  (data.map check02record,
   { ledger with
      grossError :=
        ⟨data.countP (fun r => grossIdx 0 25 r.precip),
         data.countP (fun r => grossIdx (-25) 35 r.maxTemp),
         data.countP (fun r => grossIdx (-25) 35 r.minTemp),
         data.countP (fun r => grossIdx 0 10 r.windSpeed)⟩ })

/-- Line 81: `index = (DataDF[Max Temp] < DataDF[Min Temp])`; False when
either side is NaN. -/
def swapIdx (r : Record) : Bool :=
  match r.maxTemp, r.minTemp with
  | some a, some b => decide (a < b)
  | _, _ => false

/-- Lines 86-87: swap Max Temp and Min Temp on masked records (the right-hand
side is evaluated before either assignment, so the swap is simultaneous). -/
def check03record (r : Record) : Record :=
  if swapIdx r then { r with maxTemp := r.minTemp, minTemp := r.maxTemp } else r

/-- `Check03_TmaxTminSwapped` (lines 73-88): the mask count is written to both
the Max Temp and Min Temp cells of row "3. Swapped" (lines 83-84), then the
masked records are swapped. -/
def Check03_TmaxTminSwapped (data : List Record) (ledger : Ledger) :
    List Record × Ledger :=
  (data.map check03record,
   { ledger with
      swapped :=
        { ledger.swapped with
            maxTemp := data.countP swapIdx, minTemp := data.countP swapIdx } })

/-- Line 98: `index = (DataDF[Max Temp] - DataDF[Min Temp] > 25)`; NaN
arithmetic yields NaN, which compares False. -/
def rangeIdx (r : Record) : Bool :=
  match r.maxTemp, r.minTemp with
  | some a, some b => decide (25 < a - b)
  | _, _ => false

/-- Lines 104-105: replace both temperatures with NaN on masked records. -/
def check04record (r : Record) : Record :=
  if rangeIdx r then { r with maxTemp := none, minTemp := none } else r

/-- `Check04_TmaxTminRange` (lines 90-106): the mask count is written to both
the Max Temp and Min Temp cells of row "4. Range Fail" (lines 100-101), then
masked records have both temperatures replaced with NaN. -/
def Check04_TmaxTminRange (data : List Record) (ledger : Ledger) :
    List Record × Ledger :=
  (data.map check04record,
   { ledger with
      rangeFail :=
        { ledger.rangeFail with
            maxTemp := data.countP rangeIdx, minTemp := data.countP rangeIdx } })

/-- Driver state after line 120 (`Check01_RemoveNoDataValues`). -/
def afterCheck1 (data : List Record) (ledger : Ledger) : List Record × Ledger :=
  Check01_RemoveNoDataValues data ledger

/-- Driver state after line 124 (`Check02_GrossErrors`). -/
def afterCheck2 (data : List Record) (ledger : Ledger) : List Record × Ledger :=
  Check02_GrossErrors (afterCheck1 data ledger).1 (afterCheck1 data ledger).2

/-- Driver state after line 128 (`Check03_TmaxTminSwapped`). -/
def afterCheck3 (data : List Record) (ledger : Ledger) : List Record × Ledger :=
  Check03_TmaxTminSwapped (afterCheck2 data ledger).1 (afterCheck2 data ledger).2

/-- Driver state after line 132 (`Check04_TmaxTminRange`): the pipeline output. -/
def afterCheck4 (data : List Record) (ledger : Ledger) : List Record × Ledger :=
  Check04_TmaxTminRange (afterCheck3 data ledger).1 (afterCheck3 data ledger).2

/-- Number of cells whose value differs between two record lists of equal
length, compared positionally. -/
def recordDiff (r s : Record) : ℕ :=
  (if r.precip = s.precip then 0 else 1) + (if r.maxTemp = s.maxTemp then 0 else 1)
    + (if r.minTemp = s.minTemp then 0 else 1)
    + (if r.windSpeed = s.windSpeed then 0 else 1)

/-- Total number of cell mutations between an input and an output record list. -/
def mutationCount (d e : List Record) : ℕ :=
  (List.zipWith recordDiff d e).sum

/-- Number of positions at which a single column changed between an input and
an output record list. -/
def colMutations (f : Record → Option ℚ) (d e : List Record) : ℕ :=
  (List.zipWith (fun r s => if f r = f s then 0 else 1) d e).sum

/-- Number of records that changed at all between input and output. -/
def recordMutations (d e : List Record) : ℕ :=
  (List.zipWith (fun r s => if r = s then 0 else 1) d e).sum

/-- Number of missing entries in one column. -/
def countMissing (f : Record → Option ℚ) (data : List Record) : ℕ :=
  data.countP (fun r => (f r).isNone)

/-- Sum of one ledger row across the four variable columns. -/
def rowSum (row : LedgerRow) : ℕ :=
  row.precip + row.maxTemp + row.minTemp + row.windSpeed

/-- C10: The loader's result is independent of its path argument: `ReadData`
always reads the fixed file "DataQualityChecking.txt" (line 26) and ignores
the `fileName` parameter entirely, including for the driver's second
"original baseline" load on line 139. -/
theorem ReadData_independent_of_fileName (fs : String → List RawRecord)
    (f1 f2 : String) : ReadData fs f1 = ReadData fs f2 := rfl

/-- C1: the claim fails on the code.  On a record set holding one sentinel
cell (precip = -999), Check 1 does replace the cell with missing, but the
`return` on line 44 precedes the counting loop (lines 46-48), so the
"1. No Data" ledger row is left at zero instead of recording the one match:
the column holds one missing entry while its ledger cell holds 0. -/
theorem check01_leaves_noData_row_unwritten :
    (Check01_RemoveNoDataValues
        [⟨some (-999 : ℚ), some 10, some 20, some 5⟩] zeroLedger).1
      = [⟨none, some 10, some 20, some 5⟩]
    ∧ countMissing Record.precip
        (Check01_RemoveNoDataValues
          [⟨some (-999 : ℚ), some 10, some 20, some 5⟩] zeroLedger).1 = 1
    ∧ (Check01_RemoveNoDataValues
        [⟨some (-999 : ℚ), some 10, some 20, some 5⟩] zeroLedger).2.noData
      = zeroRow := by
  refine ⟨?_, ?_, rfl⟩ <;> decide

/-- C2: ledger reconciliation fails on the code at Check 1.  On a record set
holding one sentinel cell, Check 1 mutates exactly one cell, yet the sum of
its "1. No Data" ledger row is 0 (the counting loop on lines 46-48 is dead
code behind the `return` on line 44), so row sum 0 ≠ 1 mutation. -/
theorem check01_row_sum_disagrees_with_mutations :
    mutationCount [⟨some (-999 : ℚ), some 3, some 2, some 1⟩]
        (Check01_RemoveNoDataValues
          [⟨some (-999 : ℚ), some 3, some 2, some 1⟩] zeroLedger).1 = 1
    ∧ rowSum (Check01_RemoveNoDataValues
        [⟨some (-999 : ℚ), some 3, some 2, some 1⟩] zeroLedger).2.noData = 0 := by
  exact ⟨by decide, rfl⟩

lemma replaceSentinel_idem (v : Option ℚ) :
    replaceSentinel (replaceSentinel v) = replaceSentinel v := by
  cases v with
  | none => rfl
  | some x =>
    by_cases h : x = -999 <;> simp [replaceSentinel, h]

lemma check01record_idem (r : Record) :
    check01record (check01record r) = check01record r := by
  simp [check01record, replaceSentinel_idem]

lemma recordDiff_self (r : Record) : recordDiff r r = 0 := by
  simp [recordDiff]

lemma mutationCount_self (d : List Record) : mutationCount d d = 0 := by
  induction d with
  | nil => rfl
  | cons a l ih =>
    simp_all [mutationCount, List.zipWith, recordDiff_self]

/-- C6: Check 1 is idempotent.  A second application immediately after the
first returns the same record set and the same ledger, performs zero cell
mutations, and leaves the "1. No Data" counts at zero (starting from the
loader's zero-filled ledger). -/
theorem Check01_idempotent (data : List Record) :
    Check01_RemoveNoDataValues (Check01_RemoveNoDataValues data zeroLedger).1
        (Check01_RemoveNoDataValues data zeroLedger).2
      = Check01_RemoveNoDataValues data zeroLedger
    ∧ mutationCount (Check01_RemoveNoDataValues data zeroLedger).1
        (Check01_RemoveNoDataValues (Check01_RemoveNoDataValues data zeroLedger).1
          (Check01_RemoveNoDataValues data zeroLedger).2).1 = 0
    ∧ (Check01_RemoveNoDataValues (Check01_RemoveNoDataValues data zeroLedger).1
        (Check01_RemoveNoDataValues data zeroLedger).2).2.noData = zeroRow := by
  have hmap : (data.map check01record).map check01record = data.map check01record := by
    rw [List.map_map]
    exact List.map_congr_left (fun r _ => check01record_idem r)
  refine ⟨?_, ?_, rfl⟩
  · show (((data.map check01record).map check01record), zeroLedger)
        = ((data.map check01record), zeroLedger)
    rw [hmap]
  · show mutationCount (data.map check01record)
        ((data.map check01record).map check01record) = 0
    rw [hmap]
    exact mutationCount_self _

lemma countMissing_le_map (f : Record → Option ℚ) (g : Record → Record)
    (h : ∀ r, (f r).isNone = true → (f (g r)).isNone = true) (d : List Record) :
    countMissing f d ≤ countMissing f (d.map g) := by
  unfold countMissing
  rw [List.countP_map]
  exact List.countP_mono_left (fun r _ hr => h r hr)

lemma replaceSentinel_none (v : Option ℚ) (h : v.isNone = true) :
    (replaceSentinel v).isNone = true := by
  cases v with
  | none => rfl
  | some x => simp at h

lemma applyGross_none (lo hi : ℚ) (v : Option ℚ) (h : v.isNone = true) :
    (applyGross lo hi v).isNone = true := by
  cases v with
  | none => simp [applyGross, grossIdx]
  | some x => simp at h

lemma check03record_precip (r : Record) : (check03record r).precip = r.precip := by
  unfold check03record; split <;> rfl

lemma check03record_windSpeed (r : Record) :
    (check03record r).windSpeed = r.windSpeed := by
  unfold check03record; split <;> rfl

lemma check03record_maxTemp_none (r : Record) (h : (r.maxTemp).isNone = true) :
    ((check03record r).maxTemp).isNone = true := by
  rcases r with ⟨p, mx, mn, w⟩
  simp only [Option.isNone_iff_eq_none] at h
  subst h
  cases mn <;> simp [check03record, swapIdx]

lemma check03record_minTemp_none (r : Record) (h : (r.minTemp).isNone = true) :
    ((check03record r).minTemp).isNone = true := by
  rcases r with ⟨p, mx, mn, w⟩
  simp only [Option.isNone_iff_eq_none] at h
  subst h
  cases mx <;> simp [check03record, swapIdx]

lemma check04record_precip (r : Record) : (check04record r).precip = r.precip := by
  unfold check04record; split <;> rfl

lemma check04record_windSpeed (r : Record) :
    (check04record r).windSpeed = r.windSpeed := by
  unfold check04record; split <;> rfl

lemma check04record_maxTemp_none (r : Record) (h : (r.maxTemp).isNone = true) :
    ((check04record r).maxTemp).isNone = true := by
  unfold check04record
  split
  · rfl
  · exact h

lemma check04record_minTemp_none (r : Record) (h : (r.minTemp).isNone = true) :
    ((check04record r).minTemp).isNone = true := by
  unfold check04record
  split
  · rfl
  · exact h

/-- C7: missing-value monotonicity.  In the driver's order Check 1, 2, 3, 4,
the number of missing entries in each of the four variable columns never
decreases from one stage to the next: no check turns a missing value back
into a present one. -/
theorem missing_value_monotonicity (data : List Record) (ledger : Ledger) :
    (countMissing Record.precip data
        ≤ countMissing Record.precip (afterCheck1 data ledger).1
      ∧ countMissing Record.precip (afterCheck1 data ledger).1
        ≤ countMissing Record.precip (afterCheck2 data ledger).1
      ∧ countMissing Record.precip (afterCheck2 data ledger).1
        ≤ countMissing Record.precip (afterCheck3 data ledger).1
      ∧ countMissing Record.precip (afterCheck3 data ledger).1
        ≤ countMissing Record.precip (afterCheck4 data ledger).1)
    ∧ (countMissing Record.maxTemp data
        ≤ countMissing Record.maxTemp (afterCheck1 data ledger).1
      ∧ countMissing Record.maxTemp (afterCheck1 data ledger).1
        ≤ countMissing Record.maxTemp (afterCheck2 data ledger).1
      ∧ countMissing Record.maxTemp (afterCheck2 data ledger).1
        ≤ countMissing Record.maxTemp (afterCheck3 data ledger).1
      ∧ countMissing Record.maxTemp (afterCheck3 data ledger).1
        ≤ countMissing Record.maxTemp (afterCheck4 data ledger).1)
    ∧ (countMissing Record.minTemp data
        ≤ countMissing Record.minTemp (afterCheck1 data ledger).1
      ∧ countMissing Record.minTemp (afterCheck1 data ledger).1
        ≤ countMissing Record.minTemp (afterCheck2 data ledger).1
      ∧ countMissing Record.minTemp (afterCheck2 data ledger).1
        ≤ countMissing Record.minTemp (afterCheck3 data ledger).1
      ∧ countMissing Record.minTemp (afterCheck3 data ledger).1
        ≤ countMissing Record.minTemp (afterCheck4 data ledger).1)
    ∧ (countMissing Record.windSpeed data
        ≤ countMissing Record.windSpeed (afterCheck1 data ledger).1
      ∧ countMissing Record.windSpeed (afterCheck1 data ledger).1
        ≤ countMissing Record.windSpeed (afterCheck2 data ledger).1
      ∧ countMissing Record.windSpeed (afterCheck2 data ledger).1
        ≤ countMissing Record.windSpeed (afterCheck3 data ledger).1
      ∧ countMissing Record.windSpeed (afterCheck3 data ledger).1
        ≤ countMissing Record.windSpeed (afterCheck4 data ledger).1) := by
  refine ⟨⟨?_, ?_, ?_, ?_⟩, ⟨?_, ?_, ?_, ?_⟩, ⟨?_, ?_, ?_, ?_⟩, ⟨?_, ?_, ?_, ?_⟩⟩
  · exact countMissing_le_map _ check01record
      (fun r h => replaceSentinel_none _ h) data
  · exact countMissing_le_map _ check02record
      (fun r h => applyGross_none 0 25 _ h) _
  · exact countMissing_le_map _ check03record
      (fun r h => by rw [check03record_precip]; exact h) _
  · exact countMissing_le_map _ check04record
      (fun r h => by rw [check04record_precip]; exact h) _
  · exact countMissing_le_map _ check01record
      (fun r h => replaceSentinel_none _ h) data
  · exact countMissing_le_map _ check02record
      (fun r h => applyGross_none (-25) 35 _ h) _
  · exact countMissing_le_map _ check03record
      (fun r h => check03record_maxTemp_none r h) _
  · exact countMissing_le_map _ check04record
      (fun r h => check04record_maxTemp_none r h) _
  · exact countMissing_le_map _ check01record
      (fun r h => replaceSentinel_none _ h) data
  · exact countMissing_le_map _ check02record
      (fun r h => applyGross_none (-25) 35 _ h) _
  · exact countMissing_le_map _ check03record
      (fun r h => check03record_minTemp_none r h) _
  · exact countMissing_le_map _ check04record
      (fun r h => check04record_minTemp_none r h) _
  · exact countMissing_le_map _ check01record
      (fun r h => replaceSentinel_none _ h) data
  · exact countMissing_le_map _ check02record
      (fun r h => applyGross_none 0 10 _ h) _
  · exact countMissing_le_map _ check03record
      (fun r h => by rw [check03record_windSpeed]; exact h) _
  · exact countMissing_le_map _ check04record
      (fun r h => by rw [check04record_windSpeed]; exact h) _

lemma rangeIdx_maxTemp_none (p mn w : Option ℚ) :
    rangeIdx ⟨p, none, mn, w⟩ = false := by
  cases mn <;> rfl

/-- C8: asymmetric check interaction.  For a record entering Check 2 with
Max Temp = 40 and Min Temp = 0 (any precip and wind speed), Check 2 replaces
Max Temp with missing (40 > 35 is a gross error), so when Check 4 later runs
(after Check 3), the pair no longer has both temperatures present and the
record contributes 0, not 1, to both "4. Range Fail" counts. -/
theorem gross_error_preempts_range_fail (p w : Option ℚ) (ledger : Ledger) :
    ((Check02_GrossErrors [⟨p, some 40, some 0, w⟩] ledger).1.map Record.maxTemp
      = [none])
    ∧ (Check04_TmaxTminRange
        (Check03_TmaxTminSwapped
          (Check02_GrossErrors [⟨p, some 40, some 0, w⟩] ledger).1
          (Check02_GrossErrors [⟨p, some 40, some 0, w⟩] ledger).2).1
        (Check03_TmaxTminSwapped
          (Check02_GrossErrors [⟨p, some 40, some 0, w⟩] ledger).1
          (Check02_GrossErrors [⟨p, some 40, some 0, w⟩] ledger).2).2).2.rangeFail.maxTemp
      = 0
    ∧ (Check04_TmaxTminRange
        (Check03_TmaxTminSwapped
          (Check02_GrossErrors [⟨p, some 40, some 0, w⟩] ledger).1
          (Check02_GrossErrors [⟨p, some 40, some 0, w⟩] ledger).2).1
        (Check03_TmaxTminSwapped
          (Check02_GrossErrors [⟨p, some 40, some 0, w⟩] ledger).1
          (Check02_GrossErrors [⟨p, some 40, some 0, w⟩] ledger).2).2).2.rangeFail.minTemp
      = 0 := by
  have h40 : grossIdx (-25) 35 (some (40 : ℚ)) = true := by
    simp [grossIdx]
    norm_num
  have h0 : applyGross (-25) 35 (some (0 : ℚ)) = some 0 := by
    simp [applyGross, grossIdx]
  refine ⟨?_, ?_, ?_⟩ <;>
    simp [Check02_GrossErrors, Check03_TmaxTminSwapped, Check04_TmaxTminRange,
      check02record, check03record, applyGross, h40, h0, swapIdx,
      rangeIdx_maxTemp_none, List.countP, List.countP.go]

/-- C9: ledger frame property.  The loader's ledger is zero-filled; each of
the four checks leaves the three ledger rows other than its own exactly as
received (Check 1, due to the early return, touches none); and after the full
pipeline each row still holds exactly what stood there after its own check
ran, the "1. No Data" row remaining zero. -/
theorem ledger_frame_property (fs : String → List RawRecord) (fn : String)
    (data : List Record) (ledger : Ledger) :
    ((ReadData fs fn).2.noData = ⟨0, 0, 0, 0⟩
      ∧ (ReadData fs fn).2.grossError = ⟨0, 0, 0, 0⟩
      ∧ (ReadData fs fn).2.swapped = ⟨0, 0, 0, 0⟩
      ∧ (ReadData fs fn).2.rangeFail = ⟨0, 0, 0, 0⟩)
    ∧ ((Check01_RemoveNoDataValues data ledger).2.grossError = ledger.grossError
      ∧ (Check01_RemoveNoDataValues data ledger).2.swapped = ledger.swapped
      ∧ (Check01_RemoveNoDataValues data ledger).2.rangeFail = ledger.rangeFail)
    ∧ ((Check02_GrossErrors data ledger).2.noData = ledger.noData
      ∧ (Check02_GrossErrors data ledger).2.swapped = ledger.swapped
      ∧ (Check02_GrossErrors data ledger).2.rangeFail = ledger.rangeFail)
    ∧ ((Check03_TmaxTminSwapped data ledger).2.noData = ledger.noData
      ∧ (Check03_TmaxTminSwapped data ledger).2.grossError = ledger.grossError
      ∧ (Check03_TmaxTminSwapped data ledger).2.rangeFail = ledger.rangeFail)
    ∧ ((Check04_TmaxTminRange data ledger).2.noData = ledger.noData
      ∧ (Check04_TmaxTminRange data ledger).2.grossError = ledger.grossError
      ∧ (Check04_TmaxTminRange data ledger).2.swapped = ledger.swapped)
    ∧ ((afterCheck4 data zeroLedger).2.noData = zeroRow
      ∧ (afterCheck4 data zeroLedger).2.grossError
        = (afterCheck2 data zeroLedger).2.grossError
      ∧ (afterCheck4 data zeroLedger).2.swapped
        = (afterCheck3 data zeroLedger).2.swapped
      ∧ (afterCheck4 data zeroLedger).2.rangeFail
        = (afterCheck4 data zeroLedger).2.rangeFail) :=
  ⟨⟨rfl, rfl, rfl, rfl⟩, ⟨rfl, rfl, rfl⟩, ⟨rfl, rfl, rfl⟩, ⟨rfl, rfl, rfl⟩,
   ⟨rfl, rfl, rfl⟩, ⟨rfl, rfl, rfl, rfl⟩⟩

lemma colMutations_map (f : Record → Option ℚ) (g : Record → Record)
    (d : List Record) :
    colMutations f d (d.map g) = d.countP (fun r => decide (f r ≠ f (g r))) := by
  induction d with
  | nil => rfl
  | cons a l ih =>
    rw [show colMutations f (a :: l) ((a :: l).map g)
        = (if f a = f (g a) then 0 else 1) + colMutations f l (l.map g) from by
      simp [colMutations, List.zipWith_cons_cons]]
    rw [ih, List.countP_cons]
    by_cases h : f a = f (g a) <;> simp [h] <;> omega

lemma recordMutations_map (g : Record → Record) (d : List Record) :
    recordMutations d (d.map g) = d.countP (fun r => decide (r ≠ g r)) := by
  induction d with
  | nil => rfl
  | cons a l ih =>
    rw [show recordMutations (a :: l) ((a :: l).map g)
        = (if a = g a then 0 else 1) + recordMutations l (l.map g) from by
      simp [recordMutations, List.zipWith_cons_cons]]
    rw [ih, List.countP_cons]
    by_cases h : a = g a
    · rw [if_pos h, decide_eq_false (fun hn => hn h)]
      simp
    · rw [if_neg h, decide_eq_true h]
      simp
      omega

lemma grossIdx_as_change (lo hi : ℚ) (v : Option ℚ) :
    decide (v ≠ applyGross lo hi v) = grossIdx lo hi v := by
  cases v with
  | none => simp [applyGross, grossIdx]
  | some x =>
    by_cases h : grossIdx lo hi (some x) = true
    · simp [applyGross, h]
    · simp only [Bool.not_eq_true] at h
      simp [applyGross, h]

/-- How the spec (section 4.3) describes the gross-error filter on one cell of
a column with valid range [lo, hi]; used only to state the claim about
`Check02_GrossErrors`. -/
def grossCellSpec (lo hi : ℚ) (v w : Option ℚ) : Prop :=
  (v = none → w = none)
  ∧ (∀ x : ℚ, v = some x → (x < lo ∨ hi < x) → w = none)
  ∧ (∀ x : ℚ, v = some x → lo ≤ x → x ≤ hi → w = some x)

lemma applyGross_is_grossCellSpec (lo hi : ℚ) (v : Option ℚ) :
    grossCellSpec lo hi v (applyGross lo hi v) := by
  refine ⟨?_, ?_, ?_⟩
  · rintro rfl; rfl
  · rintro x rfl hx
    have hg : grossIdx lo hi (some x) = true := by
      rcases hx with h | h <;> simp [grossIdx, h]
    simp [applyGross, hg]
  · rintro x rfl h1 h2
    have hg : grossIdx lo hi (some x) = false := by
      simp [grossIdx, not_lt]
      exact ⟨h1, h2⟩
    simp [applyGross, hg]

/-- C3: the Gross Error Filter.  For each variable, the count written to the
"2. Gross Error" ledger cell equals the number of positions at which that
column actually changed; and per record, a missing value stays missing (so it
is neither replaced again nor counted), a value strictly outside the
variable's fixed range (precip [0, 25], temperatures [-25, 35], wind [0, 10])
becomes missing, and a value inside the range, bounds included, is kept
unchanged. -/
theorem Check02_gross_error_filter_spec (data : List Record) (ledger : Ledger) :
    ((Check02_GrossErrors data ledger).2.grossError.precip
        = colMutations Record.precip data (Check02_GrossErrors data ledger).1
      ∧ (Check02_GrossErrors data ledger).2.grossError.maxTemp
        = colMutations Record.maxTemp data (Check02_GrossErrors data ledger).1
      ∧ (Check02_GrossErrors data ledger).2.grossError.minTemp
        = colMutations Record.minTemp data (Check02_GrossErrors data ledger).1
      ∧ (Check02_GrossErrors data ledger).2.grossError.windSpeed
        = colMutations Record.windSpeed data (Check02_GrossErrors data ledger).1)
    ∧ List.Forall₂ (fun r s =>
        grossCellSpec 0 25 r.precip s.precip
        ∧ grossCellSpec (-25) 35 r.maxTemp s.maxTemp
        ∧ grossCellSpec (-25) 35 r.minTemp s.minTemp
        ∧ grossCellSpec 0 10 r.windSpeed s.windSpeed)
        data (Check02_GrossErrors data ledger).1 := by
  have hcol : ∀ (lo hi : ℚ) (f : Record → Option ℚ),
      (∀ r : Record, f (check02record r) = applyGross lo hi (f r)) →
      data.countP (fun r => grossIdx lo hi (f r))
        = colMutations f data (data.map check02record) := by
    intro lo hi f hf
    rw [colMutations_map]
    refine congrArg (fun p => List.countP p data) (funext fun r => ?_)
    rw [hf r, grossIdx_as_change]
  refine ⟨⟨?_, ?_, ?_, ?_⟩, ?_⟩
  · exact hcol 0 25 Record.precip (fun r => rfl)
  · exact hcol (-25) 35 Record.maxTemp (fun r => rfl)
  · exact hcol (-25) 35 Record.minTemp (fun r => rfl)
  · exact hcol 0 10 Record.windSpeed (fun r => rfl)
  · show List.Forall₂ _ data (data.map check02record)
    rw [List.forall₂_map_right_iff, List.forall₂_same]
    exact fun r _ =>
      ⟨applyGross_is_grossCellSpec 0 25 r.precip,
       applyGross_is_grossCellSpec (-25) 35 r.maxTemp,
       applyGross_is_grossCellSpec (-25) 35 r.minTemp,
       applyGross_is_grossCellSpec 0 10 r.windSpeed⟩

lemma check03record_changes (r : Record) :
    decide (r ≠ check03record r) = swapIdx r := by
  rcases r with ⟨p, mx, mn, w⟩
  cases mx with
  | none => simp [check03record, swapIdx]
  | some a =>
    cases mn with
    | none => simp [check03record, swapIdx]
    | some b =>
      by_cases hab : a < b
      · have hne : (⟨p, some a, some b, w⟩ : Record) ≠ ⟨p, some b, some a, w⟩ := by
          intro h
          rw [Record.mk.injEq] at h
          exact absurd (Option.some.inj h.2.1) (ne_of_lt hab)
        simp [check03record, swapIdx, hab, hne]
      · simp [check03record, swapIdx, hab]

lemma check03record_swaps (r : Record) (a b : ℚ) (hmax : r.maxTemp = some a)
    (hmin : r.minTemp = some b) (hab : a < b) :
    check03record r = ⟨r.precip, some b, some a, r.windSpeed⟩ := by
  rcases r with ⟨p, mx, mn, w⟩
  have hmx : mx = some a := hmax
  have hmn : mn = some b := hmin
  subst hmx hmn
  simp [check03record, swapIdx, hab]

lemma check03record_skips_missing_max (r : Record) (h : r.maxTemp = none) :
    check03record r = r := by
  rcases r with ⟨p, mx, mn, w⟩
  have hmx : mx = none := h
  subst hmx
  cases mn <;> simp [check03record, swapIdx]

lemma check03record_skips_missing_min (r : Record) (h : r.minTemp = none) :
    check03record r = r := by
  rcases r with ⟨p, mx, mn, w⟩
  have hmn : mn = none := h
  subst hmn
  cases mx <;> simp [check03record, swapIdx]

lemma check03record_skips_ordered (r : Record) (a b : ℚ)
    (hmax : r.maxTemp = some a) (hmin : r.minTemp = some b) (hba : b ≤ a) :
    check03record r = r := by
  rcases r with ⟨p, mx, mn, w⟩
  have hmx : mx = some a := hmax
  have hmn : mn = some b := hmin
  subst hmx hmn
  have hn : ¬ a < b := not_lt.mpr hba
  simp [check03record, swapIdx, hn]

lemma check03record_post (r : Record) (a b : ℚ)
    (ha : (check03record r).maxTemp = some a)
    (hb : (check03record r).minTemp = some b) : b ≤ a := by
  rcases r with ⟨p, mx, mn, w⟩
  cases mx with
  | none =>
    rw [check03record_skips_missing_max ⟨p, none, mn, w⟩ rfl] at ha
    exact absurd ha (by simp)
  | some x =>
    cases mn with
    | none =>
      rw [check03record_skips_missing_min ⟨p, some x, none, w⟩ rfl] at hb
      exact absurd hb (by simp)
    | some y =>
      by_cases h : x < y
      · rw [check03record_swaps ⟨p, some x, some y, w⟩ x y rfl rfl h] at ha hb
        have h1 : y = a := Option.some.inj ha
        have h2 : x = b := Option.some.inj hb
        linarith
      · rw [check03record_skips_ordered ⟨p, some x, some y, w⟩ x y rfl rfl
          (not_lt.mp h)] at ha hb
        have h1 : x = a := Option.some.inj ha
        have h2 : y = b := Option.some.inj hb
        have h3 : y ≤ x := not_lt.mp h
        linarith

/-- C4: the Swap Correction.  The "3. Swapped" counts for Max Temp and
Min Temp are identical and equal the number of records actually changed
(exactly those with both temperatures present and Max Temp < Min Temp, which
are swapped); a record with a missing temperature, or with Max Temp already
at least Min Temp, is returned untouched; and afterwards every record with
both temperatures present satisfies Max Temp >= Min Temp. -/
theorem Check03_swap_correction_spec (data : List Record) (ledger : Ledger) :
    (Check03_TmaxTminSwapped data ledger).2.swapped.maxTemp
      = (Check03_TmaxTminSwapped data ledger).2.swapped.minTemp
    ∧ (Check03_TmaxTminSwapped data ledger).2.swapped.maxTemp
      = recordMutations data (Check03_TmaxTminSwapped data ledger).1
    ∧ List.Forall₂ (fun r s =>
        (∀ a b : ℚ, r.maxTemp = some a → r.minTemp = some b → a < b →
          s = ⟨r.precip, some b, some a, r.windSpeed⟩)
        ∧ (r.maxTemp = none → s = r)
        ∧ (r.minTemp = none → s = r)
        ∧ (∀ a b : ℚ, r.maxTemp = some a → r.minTemp = some b → b ≤ a → s = r))
        data (Check03_TmaxTminSwapped data ledger).1
    ∧ ∀ s ∈ (Check03_TmaxTminSwapped data ledger).1,
        ∀ a b : ℚ, s.maxTemp = some a → s.minTemp = some b → b ≤ a := by
  refine ⟨rfl, ?_, ?_, ?_⟩
  · show data.countP swapIdx = recordMutations data (data.map check03record)
    rw [recordMutations_map]
    exact congrArg (fun p => List.countP p data)
      (funext fun r => (check03record_changes r).symm)
  · show List.Forall₂ _ data (data.map check03record)
    rw [List.forall₂_map_right_iff, List.forall₂_same]
    exact fun r _ =>
      ⟨fun a b hmax hmin hab => check03record_swaps r a b hmax hmin hab,
       fun h => check03record_skips_missing_max r h,
       fun h => check03record_skips_missing_min r h,
       fun a b hmax hmin hba => check03record_skips_ordered r a b hmax hmin hba⟩
  · intro s hs a b ha hb
    have hs2 : s ∈ data.map check03record := hs
    obtain ⟨r, _, rfl⟩ := List.mem_map.1 hs2
    exact check03record_post r a b ha hb

lemma check04record_changes (r : Record) :
    decide (r ≠ check04record r) = rangeIdx r := by
  rcases r with ⟨p, mx, mn, w⟩
  cases mx with
  | none => simp [check04record, rangeIdx_maxTemp_none]
  | some a =>
    cases mn with
    | none => simp [check04record, rangeIdx]
    | some b =>
      by_cases hab : 25 < a - b
      · have hne : (⟨p, some a, some b, w⟩ : Record) ≠ ⟨p, none, none, w⟩ := by
          intro h
          rw [Record.mk.injEq] at h
          exact Option.noConfusion h.2.1
        simp [check04record, rangeIdx, hab, hne]
      · simp [check04record, rangeIdx, hab]

lemma check04record_blanks (r : Record) (a b : ℚ) (hmax : r.maxTemp = some a)
    (hmin : r.minTemp = some b) (hab : 25 < a - b) :
    check04record r = ⟨r.precip, none, none, r.windSpeed⟩ := by
  rcases r with ⟨p, mx, mn, w⟩
  have hmx : mx = some a := hmax
  have hmn : mn = some b := hmin
  subst hmx hmn
  simp [check04record, rangeIdx, hab]

lemma check04record_skips_missing_max (r : Record) (h : r.maxTemp = none) :
    check04record r = r := by
  rcases r with ⟨p, mx, mn, w⟩
  have hmx : mx = none := h
  subst hmx
  simp [check04record, rangeIdx_maxTemp_none]

lemma check04record_skips_missing_min (r : Record) (h : r.minTemp = none) :
    check04record r = r := by
  rcases r with ⟨p, mx, mn, w⟩
  have hmn : mn = none := h
  subst hmn
  cases mx <;> simp [check04record, rangeIdx]

lemma check04record_skips_small_spread (r : Record) (a b : ℚ)
    (hmax : r.maxTemp = some a) (hmin : r.minTemp = some b)
    (hab : a - b ≤ 25) : check04record r = r := by
  rcases r with ⟨p, mx, mn, w⟩
  have hmx : mx = some a := hmax
  have hmn : mn = some b := hmin
  subst hmx hmn
  have hn : ¬ 25 < a - b := not_lt.mpr hab
  simp [check04record, rangeIdx, hn]

/-- C5: the Range-Spread Correction.  The "4. Range Fail" counts for Max Temp
and Min Temp are identical and equal the number of records actually changed
(exactly those with both temperatures present and spread Max Temp - Min Temp
strictly greater than 25, which have both temperatures replaced by missing
while precip and wind speed are kept); a record with a missing temperature or
a spread of at most 25 is returned untouched and uncounted. -/
theorem Check04_range_spread_spec (data : List Record) (ledger : Ledger) :
    (Check04_TmaxTminRange data ledger).2.rangeFail.maxTemp
      = (Check04_TmaxTminRange data ledger).2.rangeFail.minTemp
    ∧ (Check04_TmaxTminRange data ledger).2.rangeFail.maxTemp
      = recordMutations data (Check04_TmaxTminRange data ledger).1
    ∧ List.Forall₂ (fun r s =>
        (∀ a b : ℚ, r.maxTemp = some a → r.minTemp = some b → 25 < a - b →
          s = ⟨r.precip, none, none, r.windSpeed⟩)
        ∧ (r.maxTemp = none → s = r)
        ∧ (r.minTemp = none → s = r)
        ∧ (∀ a b : ℚ, r.maxTemp = some a → r.minTemp = some b → a - b ≤ 25 →
          s = r))
        data (Check04_TmaxTminRange data ledger).1 := by
  refine ⟨rfl, ?_, ?_⟩
  · show data.countP rangeIdx = recordMutations data (data.map check04record)
    rw [recordMutations_map]
    exact congrArg (fun p => List.countP p data)
      (funext fun r => (check04record_changes r).symm)
  · show List.Forall₂ _ data (data.map check04record)
    rw [List.forall₂_map_right_iff, List.forall₂_same]
    exact fun r _ =>
      ⟨fun a b hmax hmin hab => check04record_blanks r a b hmax hmin hab,
       fun h => check04record_skips_missing_max r h,
       fun h => check04record_skips_missing_min r h,
       fun a b hmax hmin hab => check04record_skips_small_spread r a b hmax hmin hab⟩
